import Mathlib

/-!
Verification of the campaign/recipient lifecycle data model of the
handshake-haven CRM.

The development shallowly embeds the two campaign route modules (referred to
below as variant 1, the routes module whose start endpoint requires status
draft, and variant 0, the routes module whose start endpoint accepts draft or
paused) together with the persisted schema (campaigns, campaign_messages,
campaign_recipients tables).  SQL statements are modelled as pure functions
over an explicit store; BEGIN/COMMIT/ROLLBACK is modelled by returning the
pre-transaction store on failure; unique and check constraints of the schema
are enforced by the insert functions.
-/

namespace CRM

/-- Campaign status column: CHECK (status IN (draft, active, paused, completed, cancelled)). -/
inductive CStatus where
  | draft
  | active
  | paused
  | completed
  | cancelled
deriving DecidableEq, Repr

/-- Campaign type column: CHECK (type IN (linkedin, email, mixed)). -/
inductive CType where
  | linkedin
  | email
  | mixed
deriving DecidableEq, Repr

/-- Recipient status column: CHECK over pending/sent/delivered/opened/replied/bounced/failed. -/
inductive RStatus where
  | pending
  | sent
  | delivered
  | opened
  | replied
  | bounced
  | failed
deriving DecidableEq, Repr

/-- A row of the campaigns table. -/
structure Campaign where
  id : Nat
  user_id : Nat
  name : String
  description : Option String
  ctype : CType
  status : CStatus
  message_count : Int
  interval_days : Int
  start_date : Option Nat
  end_date : Option Nat
  target_audience : Option String
  settings : Option String
  created_at : Nat
  updated_at : Nat
deriving DecidableEq, Repr

/-- A row of the campaign_messages table.  The schema has
UNIQUE(campaign_id, sequence_number, message_type) and
CHECK (message_type IN (linkedin, email)). -/
structure CampaignMessage where
  campaign_id : Nat
  sequence_number : Int
  subject : Option String
  message_body : String
  message_type : CType
  personalization_fields : Option String
  created_at : Nat
deriving DecidableEq, Repr

/-- A row of the campaign_recipients table.  The schema has
UNIQUE(campaign_id, contact_id); status defaults to pending,
current_message_sequence to 1, and the timestamps to NULL. -/
structure Recipient where
  campaign_id : Nat
  contact_id : Nat
  status : RStatus
  current_message_sequence : Int
  last_message_sent_at : Option Nat
  next_message_scheduled_at : Option Nat
  personalized_data : Option String
  created_at : Nat
deriving DecidableEq, Repr

/-- The campaign-related tables of the database. -/
structure Store where
  campaigns : List Campaign
  messages : List CampaignMessage
  recipients : List Recipient
  nextCampaignId : Nat
deriving DecidableEq, Repr

/-- Errors surfaced by the route handlers: 400 responses, 404 responses, and
the 500 response produced when a SQL statement inside a transaction fails and
the transaction is rolled back. -/
inductive ApiError where
  | badRequest : String → ApiError
  | notFound : String → ApiError
  | serverError : ApiError
deriving DecidableEq, Repr

/-- Failure of a single SQL insert due to a schema constraint. -/
inductive DbError where
  | uniqueViolation
  | checkViolation
deriving DecidableEq, Repr

/-- One element of the messages array of a create/update request body. -/
structure MsgInput where
  sequence_number : Int
  subject : Option String
  message_body : String
  message_type : CType
  personalization_fields : Option String
deriving DecidableEq, Repr

/-- Request body of POST / (create campaign). -/
structure CreateInput where
  name : Option String
  description : Option String
  ctype : Option CType
  message_count : Option Int
  interval_days : Option Int
  start_date : Option Nat
  end_date : Option Nat
  target_audience : Option String
  settings : Option String
  messages : Option (List MsgInput)
deriving DecidableEq, Repr

/-- Request body of PUT /:id (update campaign). -/
structure UpdateInput where
  name : Option String
  description : Option String
  ctype : Option CType
  status : Option CStatus
  message_count : Option Int
  interval_days : Option Int
  start_date : Option Nat
  end_date : Option Nat
  target_audience : Option String
  settings : Option String
  messages : Option (List MsgInput)
deriving DecidableEq, Repr

/-- JS truthiness of an optional string request field (undefined, null and
the empty string are falsy). -/
def truthyStr : Option String → Bool
  | none => false
  | some s => !s.isEmpty

/-- JS truthiness of an optional numeric request field (undefined, null and 0
are falsy). -/
def truthyInt : Option Int → Bool
  | none => false
  | some n => decide (n ≠ 0)

/-- The JS expression (interval_days || 1). -/
def orOneInt : Option Int → Int
  | none => 1
  | some n => if n = 0 then 1 else n

/-- SQL COALESCE of a request field against a nullable column. -/
def coalesce : Option α → Option α → Option α
  | none, old => old
  | some v, _ => some v

/-- Insert of one row into campaign_messages, enforcing the CHECK constraint
on message_type and the UNIQUE(campaign_id, sequence_number, message_type)
constraint. -/
def insertMessage (tbl : List CampaignMessage) (m : CampaignMessage) :
    Except DbError (List CampaignMessage) :=
  if m.message_type = CType.mixed then .error .checkViolation
  else if tbl.any (fun x => decide (x.campaign_id = m.campaign_id ∧
      x.sequence_number = m.sequence_number ∧ x.message_type = m.message_type)) then
    .error .uniqueViolation
  else .ok (tbl ++ [m])

/-- Sequential insert of several rows into campaign_messages; the first
failing insert aborts the loop. -/
def insertMessages (tbl : List CampaignMessage) : List CampaignMessage →
    Except DbError (List CampaignMessage)
  | [] => .ok tbl
  | m :: rest =>
    match insertMessage tbl m with
    | .error e => .error e
    | .ok tbl2 => insertMessages tbl2 rest

/-- Rows inserted by variant 1 for a messages array: the caller-provided
sequence_number and message_type of each element are stored as given. -/
def entriesFrom₁ (cid now : Nat) (msgs : List MsgInput) : List CampaignMessage :=
  msgs.map (fun m =>
    { campaign_id := cid, sequence_number := m.sequence_number, subject := m.subject,
      message_body := m.message_body, message_type := m.message_type,
      personalization_fields := m.personalization_fields, created_at := now })

/-- Rows inserted by variant 0 for a messages array: element i is stored with
sequence_number i + 1 and with the campaign type as message_type. -/
def renumber (cid : Nat) (t : CType) (now : Nat) (k : Int) :
    List MsgInput → List CampaignMessage
  | [] => []
  | m :: rest =>
    { campaign_id := cid, sequence_number := k, subject := m.subject,
      message_body := m.message_body, message_type := t,
      personalization_fields := m.personalization_fields, created_at := now } ::
    renumber cid t now (k + 1) rest

/-- The JSON text of an empty object, produced by JSON.stringify of
(target_audience || \x7b\x7d) in variant 1. -/
def emptyJson : String := "\x7b\x7d"

/-- The campaigns row inserted by POST / of variant 1: draft status,
interval_days defaulted by the JS expression (interval_days || 1), start_date
passed through (start_date || null), no end_date column in the INSERT, and
JSON blobs defaulted to the empty object. -/
def mkCampaign₁ (s : Store) (uid : Nat) (input : CreateInput) (now : Nat) : Campaign :=
  { id := s.nextCampaignId, user_id := uid, name := input.name.getD "",
    description := input.description, ctype := input.ctype.getD CType.linkedin,
    status := CStatus.draft, message_count := input.message_count.getD 0,
    interval_days := orOneInt input.interval_days, start_date := input.start_date,
    end_date := none,
    target_audience := some (input.target_audience.getD emptyJson),
    settings := some (input.settings.getD emptyJson),
    created_at := now, updated_at := now }

/-- POST / of variant 1: required-field check via JS truthiness, then a
transaction inserting the campaign row and one campaign_messages row per
element of the messages array with caller-provided sequence_number and
message_type; any insert failure rolls the whole transaction back. -/
def createCampaign₁ (s : Store) (uid : Nat) (input : CreateInput) (now : Nat) :
    Store × Except ApiError Campaign :=
  if !(truthyStr input.name && input.ctype.isSome &&
       truthyInt input.message_count && input.messages.isSome) then
    (s, .error (.badRequest "Missing required fields: name, type, message_count, messages"))
  else
    match insertMessages s.messages
        (entriesFrom₁ s.nextCampaignId now (input.messages.getD [])) with
    | .error _ => (s, .error .serverError)
    | .ok tbl =>
      ({ s with campaigns := s.campaigns ++ [mkCampaign₁ s uid input now], messages := tbl,
                nextCampaignId := s.nextCampaignId + 1 }, .ok (mkCampaign₁ s uid input now))

/-- The campaigns row inserted by POST / of variant 0: draft status, fields
passed through, including end_date (unlike variant 1). -/
def mkCampaign₀ (s : Store) (uid : Nat) (input : CreateInput) (now : Nat) : Campaign :=
  { id := s.nextCampaignId, user_id := uid, name := input.name.getD "",
    description := input.description, ctype := input.ctype.getD CType.linkedin,
    status := CStatus.draft, message_count := input.message_count.getD 0,
    interval_days := input.interval_days.getD 1, start_date := input.start_date,
    end_date := input.end_date, target_audience := input.target_audience,
    settings := input.settings, created_at := now, updated_at := now }

/-- POST / of variant 0: required-field check, then the explicit check that
messages.length equals message_count, then a transaction inserting the
campaign row and the messages renumbered i + 1 with the campaign type as
message_type; any insert failure rolls the whole transaction back. -/
def createCampaign₀ (s : Store) (uid : Nat) (input : CreateInput) (now : Nat) :
    Store × Except ApiError Campaign :=
  if !(truthyStr input.name && input.ctype.isSome &&
       truthyInt input.message_count && input.messages.isSome) then
    (s, .error (.badRequest "Missing required fields"))
  else
    if decide (((input.messages.getD []).length : Int) ≠ input.message_count.getD 0) then
      (s, .error (.badRequest "Number of messages must match message_count"))
    else
      match insertMessages s.messages
          (renumber s.nextCampaignId (input.ctype.getD CType.linkedin) now 1
            (input.messages.getD [])) with
      | .error _ => (s, .error .serverError)
      | .ok tbl =>
        ({ s with campaigns := s.campaigns ++ [mkCampaign₀ s uid input now], messages := tbl,
                  nextCampaignId := s.nextCampaignId + 1 }, .ok (mkCampaign₀ s uid input now))

/-- The UPDATE campaigns SET ... COALESCE ... statement of variant 1 applied
to one matching row; note that it coalesces the status column from the
request body. -/
def applyUpdate₁ (input : UpdateInput) (now : Nat) (c : Campaign) : Campaign :=
  { c with
    name := input.name.getD c.name,
    description := coalesce input.description c.description,
    ctype := input.ctype.getD c.ctype,
    status := input.status.getD c.status,
    message_count := input.message_count.getD c.message_count,
    interval_days := input.interval_days.getD c.interval_days,
    start_date := coalesce input.start_date c.start_date,
    target_audience := coalesce input.target_audience c.target_audience,
    settings := coalesce input.settings c.settings,
    updated_at := now }

/-- The UPDATE campaigns SET ... COALESCE ... statement of variant 0 applied
to one matching row; it does not mention the status column but does coalesce
end_date. -/
def applyUpdate₀ (input : UpdateInput) (now : Nat) (c : Campaign) : Campaign :=
  { c with
    name := input.name.getD c.name,
    description := coalesce input.description c.description,
    ctype := input.ctype.getD c.ctype,
    message_count := input.message_count.getD c.message_count,
    interval_days := input.interval_days.getD c.interval_days,
    start_date := coalesce input.start_date c.start_date,
    end_date := coalesce input.end_date c.end_date,
    target_audience := coalesce input.target_audience c.target_audience,
    settings := coalesce input.settings c.settings,
    updated_at := now }

/-- PUT /:id of variant 1: ownership check, then a transaction that updates
the campaign row (including status) and, when a messages array is provided,
unconditionally deletes all campaign_messages rows of the campaign and
reinserts the provided ones with caller-provided sequence numbers. -/
def updateCampaign₁ (s : Store) (uid cid : Nat) (input : UpdateInput) (now : Nat) :
    Store × Except ApiError Campaign :=
  match s.campaigns.find? (fun c => decide (c.id = cid ∧ c.user_id = uid)) with
  | none => (s, .error (.notFound "Campaign not found"))
  | some c0 =>
    match input.messages with
    | none =>
      ({ s with campaigns := s.campaigns.map (fun c =>
          if decide (c.id = cid ∧ c.user_id = uid) then applyUpdate₁ input now c else c) },
       .ok (applyUpdate₁ input now c0))
    | some msgs =>
      match insertMessages (s.messages.filter (fun m => decide (m.campaign_id ≠ cid)))
          (entriesFrom₁ cid now msgs) with
      | .error _ => (s, .error .serverError)
      | .ok tbl =>
        ({ s with
             campaigns := s.campaigns.map (fun c =>
               if decide (c.id = cid ∧ c.user_id = uid) then applyUpdate₁ input now c else c),
             messages := tbl },
         .ok (applyUpdate₁ input now c0))

/-- PUT /:id of variant 0: ownership check, then a transaction that updates
the campaign row (without touching status) and, when a messages array is
provided, deletes all campaign_messages rows of the campaign and reinserts
the provided ones renumbered i + 1 with message_type equal to
(type || existing campaign type). -/
def updateCampaign₀ (s : Store) (uid cid : Nat) (input : UpdateInput) (now : Nat) :
    Store × Except ApiError Campaign :=
  match s.campaigns.find? (fun c => decide (c.id = cid ∧ c.user_id = uid)) with
  | none => (s, .error (.notFound "Campaign not found"))
  | some c0 =>
    match input.messages with
    | none =>
      ({ s with campaigns := s.campaigns.map (fun c =>
          if decide (c.id = cid ∧ c.user_id = uid) then applyUpdate₀ input now c else c) },
       .ok (applyUpdate₀ input now c0))
    | some msgs =>
      match insertMessages (s.messages.filter (fun m => decide (m.campaign_id ≠ cid)))
          (renumber cid (input.ctype.getD c0.ctype) now 1 msgs) with
      | .error _ => (s, .error .serverError)
      | .ok tbl =>
        ({ s with
             campaigns := s.campaigns.map (fun c =>
               if decide (c.id = cid ∧ c.user_id = uid) then applyUpdate₀ input now c else c),
             messages := tbl },
         .ok (applyUpdate₀ input now c0))

/-- DELETE /:id (identical in both variants): DELETE ... WHERE id AND user_id
RETURNING *; the schema cascades the delete to campaign_messages and
campaign_recipients. -/
def deleteCampaign (s : Store) (uid cid : Nat) : Store × Except ApiError Unit :=
  if s.campaigns.any (fun c => decide (c.id = cid ∧ c.user_id = uid)) then
    ({ s with
        campaigns := s.campaigns.filter (fun c => !decide (c.id = cid ∧ c.user_id = uid)),
        messages := s.messages.filter (fun m => !decide (m.campaign_id = cid)),
        recipients := s.recipients.filter (fun r => !decide (r.campaign_id = cid)) },
     .ok ())
  else (s, .error (.notFound "Campaign not found"))

/-- A fresh campaign_recipients row: all non-key columns take their schema
defaults (status pending, current_message_sequence 1, NULL timestamps, empty
history). -/
def newRecipient (cid contactId now : Nat) : Recipient :=
  { campaign_id := cid, contact_id := contactId, status := RStatus.pending,
    current_message_sequence := 1, last_message_sent_at := none,
    next_message_scheduled_at := none, personalized_data := none, created_at := now }

/-- Whether a (campaign_id, contact_id) pair is present in campaign_recipients. -/
def hasRecipient (tbl : List Recipient) (cid ct : Nat) : Bool :=
  tbl.any (fun r => decide (r.campaign_id = cid ∧ r.contact_id = ct))

/-- INSERT INTO campaign_recipients ... ON CONFLICT (campaign_id, contact_id)
DO NOTHING RETURNING *, iterated over the contact_ids array; the second
component collects the contact ids whose insert actually returned a row. -/
def addRecLoop (cid now : Nat) (acc : List Recipient × List Nat) :
    List Nat → List Recipient × List Nat
  | [] => acc
  | ct :: rest =>
    addRecLoop cid now
      (if hasRecipient acc.1 cid ct then acc
       else (acc.1 ++ [newRecipient cid ct now], acc.2 ++ [ct])) rest

/-- POST /:id/recipients (identical conflict handling in both variants):
contact_ids array required, ownership check, then the idempotent inserts. -/
def addRecipients (s : Store) (uid cid : Nat) (contactIds : Option (List Nat))
    (now : Nat) : Store × Except ApiError (List Nat) :=
  match contactIds with
  | none => (s, .error (.badRequest "contact_ids array is required"))
  | some ids =>
    if s.campaigns.any (fun c => decide (c.id = cid ∧ c.user_id = uid)) then
      let res := addRecLoop cid now (s.recipients, []) ids
      ({ s with recipients := res.1 }, .ok res.2)
    else (s, .error (.notFound "Campaign not found"))

/-- POST /:id/start of variant 1: UPDATE campaigns SET status = active,
start_date = CASE WHEN start_date IS NULL THEN now ELSE start_date END
WHERE id AND user_id AND status = draft; 400 when no row matches. -/
def startCampaign₁ (s : Store) (uid cid now : Nat) :
    Store × Except ApiError Campaign :=
  match s.campaigns.find? (fun c =>
      decide (c.id = cid ∧ c.user_id = uid ∧ c.status = CStatus.draft)) with
  | none =>
    (s, .error (.badRequest "Campaign not found or cannot be started (must be in draft status)"))
  | some c =>
    ({ s with campaigns := s.campaigns.map (fun x =>
        if decide (x.id = cid ∧ x.user_id = uid ∧ x.status = CStatus.draft) then
          { x with status := CStatus.active, start_date := some (x.start_date.getD now),
                   updated_at := now }
        else x) },
     .ok { c with status := CStatus.active, start_date := some (c.start_date.getD now),
                  updated_at := now })

/-- POST /:id/start of variant 0: UPDATE campaigns SET status = active,
start_date = now WHERE id AND user_id AND status IN (draft, paused); 404 when
no row matches. -/
def startCampaign₀ (s : Store) (uid cid now : Nat) :
    Store × Except ApiError Campaign :=
  match s.campaigns.find? (fun c =>
      decide (c.id = cid ∧ c.user_id = uid ∧
        (c.status = CStatus.draft ∨ c.status = CStatus.paused))) with
  | none => (s, .error (.notFound "Campaign not found or cannot be started"))
  | some c =>
    ({ s with campaigns := s.campaigns.map (fun x =>
        if decide (x.id = cid ∧ x.user_id = uid ∧
            (x.status = CStatus.draft ∨ x.status = CStatus.paused)) then
          { x with status := CStatus.active, start_date := some now, updated_at := now }
        else x) },
     .ok { c with status := CStatus.active, start_date := some now, updated_at := now })

/-- POST /:id/pause of variant 1: the new status is active when action is
resume and paused otherwise; WHERE id AND user_id AND status IN
(active, paused); 400 when no row matches. -/
def pauseResume₁ (s : Store) (uid cid : Nat) (action : Option String) (now : Nat) :
    Store × Except ApiError Campaign :=
  match s.campaigns.find? (fun c =>
      decide (c.id = cid ∧ c.user_id = uid ∧
        (c.status = CStatus.active ∨ c.status = CStatus.paused))) with
  | none => (s, .error (.badRequest "Campaign not found or cannot be paused/resumed"))
  | some c =>
    ({ s with campaigns := s.campaigns.map (fun x =>
        if decide (x.id = cid ∧ x.user_id = uid ∧
            (x.status = CStatus.active ∨ x.status = CStatus.paused)) then
          { x with
              status := if action = some "resume" then CStatus.active else CStatus.paused,
              updated_at := now }
        else x) },
     .ok { c with
             status := if action = some "resume" then CStatus.active else CStatus.paused,
             updated_at := now })

/-- Insertion of an element into a list sorted by the Boolean relation le
(models the sorting performed by SQL ORDER BY). -/
def insertSorted (le : α → α → Bool) (a : α) : List α → List α
  | [] => [a]
  | b :: rest => if le a b then a :: b :: rest else b :: insertSorted le a rest

/-- Insertion sort by the Boolean relation le (models SQL ORDER BY). -/
def sortRows (le : α → α → Bool) : List α → List α
  | [] => []
  | a :: rest => insertSorted le a (sortRows le rest)

/-- Key for ORDER BY sequence_number, message_type (message_type compares as
text: email before linkedin before mixed). -/
def typeOrd : CType → Nat
  | CType.email => 0
  | CType.linkedin => 1
  | CType.mixed => 2

/-- ORDER BY sequence_number, message_type comparison. -/
def msgLe (m1 m2 : CampaignMessage) : Bool :=
  decide (m1.sequence_number < m2.sequence_number ∨
          (m1.sequence_number = m2.sequence_number ∧
           typeOrd m1.message_type ≤ typeOrd m2.message_type))

/-- ORDER BY cr.created_at DESC comparison. -/
def recipDescLe (r1 r2 : Recipient) : Bool := decide (r2.created_at ≤ r1.created_at)

/-- ORDER BY c.created_at DESC comparison. -/
def campDescLe (c1 c2 : Campaign) : Bool := decide (c2.created_at ≤ c1.created_at)

/-- Nested campaign returned by GET /:id of variant 1. -/
structure CampaignDetail where
  campaign : Campaign
  messages : List CampaignMessage
  recipients : List Recipient
deriving DecidableEq, Repr

/-- GET /:id of variant 1: ownership-filtered select of the campaign row,
then its ordered campaign_messages and campaign_recipients rows. -/
def getCampaign₁ (s : Store) (uid cid : Nat) : Except ApiError CampaignDetail :=
  match s.campaigns.find? (fun c => decide (c.id = cid ∧ c.user_id = uid)) with
  | none => .error (.notFound "Campaign not found")
  | some c =>
    .ok { campaign := c,
          messages := sortRows msgLe
            (s.messages.filter (fun m => decide (m.campaign_id = cid))),
          recipients := sortRows recipDescLe
            (s.recipients.filter (fun r => decide (r.campaign_id = cid))) }

/-- One row of the GET / listing of variant 1, with the aggregated recipient
counts of the LEFT JOIN. -/
structure CampaignRow where
  campaign : Campaign
  recipient_count : Nat
  sent_count : Nat
deriving DecidableEq, Repr

/-- GET / of variant 1: campaigns of the authenticated user, optionally
filtered by status and type, ordered by created_at DESC, paginated with
LIMIT/OFFSET, each with its recipient and sent counts. -/
def listCampaigns₁ (s : Store) (uid : Nat) (statusF : Option CStatus)
    (typeF : Option CType) (page limit : Nat) : List CampaignRow :=
  let filtered := s.campaigns.filter (fun c =>
    decide (c.user_id = uid) &&
    (match statusF with | none => true | some st => decide (c.status = st)) &&
    (match typeF with | none => true | some t => decide (c.ctype = t)))
  let paged := ((sortRows campDescLe filtered).drop ((page - 1) * limit)).take limit
  paged.map (fun c =>
    { campaign := c,
      recipient_count :=
        (s.recipients.filter (fun r => decide (r.campaign_id = c.id))).length,
      sent_count :=
        (s.recipients.filter (fun r =>
          decide (r.campaign_id = c.id ∧ r.status = RStatus.sent))).length })

/-- POST /:id/pause of variant 0: action must be pause or resume; pausing
requires current status active, resuming requires current status paused;
404 when no row matches. -/
def pauseResume₀ (s : Store) (uid cid : Nat) (action : Option String) (now : Nat) :
    Store × Except ApiError Campaign :=
  if !decide (action = some "pause" ∨ action = some "resume") then
    (s, .error (.badRequest "Action must be either pause or resume"))
  else
    match s.campaigns.find? (fun c =>
        decide (c.id = cid ∧ c.user_id = uid ∧
          c.status = (if action = some "pause" then CStatus.active else CStatus.paused))) with
    | none => (s, .error (.notFound "Campaign not found or cannot be changed"))
    | some c =>
      ({ s with campaigns := s.campaigns.map (fun x =>
          if decide (x.id = cid ∧ x.user_id = uid ∧
              x.status = (if action = some "pause" then CStatus.active else CStatus.paused)) then
            { x with
                status := if action = some "pause" then CStatus.paused else CStatus.active,
                updated_at := now }
          else x) },
       .ok { c with
               status := if action = some "pause" then CStatus.paused else CStatus.active,
               updated_at := now })

/-! Concrete fixtures used by counterexamples and witnesses. -/

/-- A store with no rows at all. -/
def emptyStore : Store :=
  { campaigns := [], messages := [], recipients := [], nextCampaignId := 1 }

/-- A draft campaign of user 7 declaring message_count 3 but with no message
sequence rows and no recipients in the store. -/
def campA : Campaign :=
  { id := 1, user_id := 7, name := "a", description := none, ctype := CType.email,
    status := CStatus.draft, message_count := 3, interval_days := 1,
    start_date := none, end_date := none, target_audience := none, settings := none,
    created_at := 0, updated_at := 0 }

/-- Store holding only campA: its message sequence is incomplete (0 of 3
entries) and it has zero recipients. -/
def storeA : Store :=
  { campaigns := [campA], messages := [], recipients := [], nextCampaignId := 2 }

/-- A message row of campaign 1 with sequence_number n and the given body. -/
def msgRow (n : Int) (body : String) : CampaignMessage :=
  { campaign_id := 1, sequence_number := n, subject := none, message_body := body,
    message_type := CType.email, personalization_fields := none, created_at := 0 }

/-- A pending recipient of campaign 1 whose current_message_sequence is n and
whose next_message_scheduled_at is NULL. -/
def recipRow (ct : Nat) (n : Int) : Recipient :=
  { campaign_id := 1, contact_id := ct, status := RStatus.pending,
    current_message_sequence := n, last_message_sent_at := none,
    next_message_scheduled_at := none, personalized_data := none, created_at := 0 }

/-- A draft campaign of user 7 with a complete one-message sequence and one
pending recipient whose next_message_scheduled_at is NULL. -/
def campB : Campaign :=
  { campA with message_count := 1 }

/-- Store for campB. -/
def storeB : Store :=
  { campaigns := [campB], messages := [msgRow 1 "hello"],
    recipients := [recipRow 5 1], nextCampaignId := 2 }

/-- A draft campaign of user 7 with a complete three-message sequence and a
recipient who has already progressed to current_message_sequence 2. -/
def storeC : Store :=
  { campaigns := [campA],
    messages := [msgRow 1 "one", msgRow 2 "two", msgRow 3 "three"],
    recipients := [recipRow 5 2], nextCampaignId := 2 }

/-- A completed campaign of user 7. -/
def campD : Campaign :=
  { campA with status := CStatus.completed }

/-- Store holding only the completed campD. -/
def storeD : Store :=
  { campaigns := [campD], messages := [], recipients := [], nextCampaignId := 2 }

/-- An update request body with every field absent. -/
def emptyUpdate : UpdateInput :=
  { name := none, description := none, ctype := none, status := none,
    message_count := none, interval_days := none, start_date := none,
    end_date := none, target_audience := none, settings := none, messages := none }

/-- A create request body with every field absent. -/
def emptyCreate : CreateInput :=
  { name := none, description := none, ctype := none, message_count := none,
    interval_days := none, start_date := none, end_date := none,
    target_audience := none, settings := none, messages := none }

/-- A message input with the given sequence number and body. -/
def msgIn (n : Int) (body : String) : MsgInput :=
  { sequence_number := n, subject := none, message_body := body,
    message_type := CType.email, personalization_fields := none }

/-! Generic lemmas about the SQL building blocks. -/

theorem insertMessage_ok {tbl : List CampaignMessage} {m : CampaignMessage}
    {tbl2 : List CampaignMessage} (h : insertMessage tbl m = .ok tbl2) :
    tbl2 = tbl ++ [m] := by
  unfold insertMessage at h
  split at h
  · cases h
  · split at h
    · cases h
    · cases h
      rfl

theorem insertMessages_ok :
    ∀ (l : List CampaignMessage) (tbl tbl2 : List CampaignMessage),
      insertMessages tbl l = .ok tbl2 → tbl2 = tbl ++ l := by
  intro l
  induction l with
  | nil =>
    intro tbl tbl2 h
    cases h
    simp
  | cons m rest ih =>
    intro tbl tbl2 h
    unfold insertMessages at h
    cases hm : insertMessage tbl m with
    | error e => rw [hm] at h; cases h
    | ok t2 =>
      rw [hm] at h
      have h2 := ih t2 tbl2 h
      rw [h2, insertMessage_ok hm]
      simp

/-- The integer sequence k, k+1, ..., k+n-1. -/
def seqFrom (k : Int) : Nat → List Int
  | 0 => []
  | n + 1 => k :: seqFrom (k + 1) n

theorem mem_seqFrom : ∀ (n : Nat) (k j : Int), j ∈ seqFrom k n ↔ k ≤ j ∧ j < k + n := by
  intro n
  induction n with
  | zero => intro k j; simp [seqFrom]
  | succ n ih =>
    intro k j
    simp only [seqFrom, List.mem_cons, ih]
    constructor
    · rintro (rfl | ⟨h1, h2⟩)
      · constructor
        · exact le_refl j
        · omega
      · constructor
        · omega
        · omega
    · rintro ⟨h1, h2⟩
      by_cases hj : j = k
      · exact Or.inl hj
      · right
        constructor
        · omega
        · omega

theorem nodup_seqFrom : ∀ (n : Nat) (k : Int), (seqFrom k n).Nodup := by
  intro n
  induction n with
  | zero => intro k; simp [seqFrom]
  | succ n ih =>
    intro k
    simp only [seqFrom, List.nodup_cons]
    refine ⟨fun hmem => ?_, ih (k + 1)⟩
    have := (mem_seqFrom n (k + 1) k).mp hmem
    omega

theorem renumber_map_seq (cid : Nat) (t : CType) (now : Nat) :
    ∀ (msgs : List MsgInput) (k : Int),
      (renumber cid t now k msgs).map (fun m => m.sequence_number) =
        seqFrom k msgs.length := by
  intro msgs
  induction msgs with
  | nil => intro k; rfl
  | cons m rest ih =>
    intro k
    simp only [renumber, List.map_cons, List.length_cons, seqFrom]
    rw [ih]

theorem renumber_length (cid : Nat) (t : CType) (now : Nat) :
    ∀ (msgs : List MsgInput) (k : Int),
      (renumber cid t now k msgs).length = msgs.length := by
  intro msgs
  induction msgs with
  | nil => intro k; rfl
  | cons m rest ih =>
    intro k
    simp only [renumber, List.length_cons]
    rw [ih]

theorem renumber_campaign_id (cid : Nat) (t : CType) (now : Nat) :
    ∀ (msgs : List MsgInput) (k : Int) (m : CampaignMessage),
      m ∈ renumber cid t now k msgs → m.campaign_id = cid := by
  intro msgs
  induction msgs with
  | nil => intro k m h; cases h
  | cons x rest ih =>
    intro k m h
    simp only [renumber, List.mem_cons] at h
    rcases h with rfl | h
    · rfl
    · exact ih (k + 1) m h

theorem entriesFrom₁_campaign_id (cid now : Nat) (msgs : List MsgInput)
    (m : CampaignMessage) (h : m ∈ entriesFrom₁ cid now msgs) :
    m.campaign_id = cid := by
  simp only [entriesFrom₁, List.mem_map] at h
  obtain ⟨x, _, rfl⟩ := h
  rfl

theorem filter_ne_then_eq (cid : Nat) (l : List CampaignMessage) :
    (l.filter (fun m => decide (m.campaign_id ≠ cid))).filter
      (fun m => decide (m.campaign_id = cid)) = [] := by
  rw [List.filter_eq_nil_iff]
  intro m hm
  have h1 := List.of_mem_filter hm
  simp only [decide_eq_true_eq] at h1 ⊢
  exact h1

theorem filter_eq_of_all (cid : Nat) (l : List CampaignMessage)
    (h : ∀ m ∈ l, m.campaign_id = cid) :
    l.filter (fun m => decide (m.campaign_id = cid)) = l := by
  rw [List.filter_eq_self]
  intro m hm
  simp only [decide_eq_true_eq]
  exact h m hm

/-! Lemmas about the lifecycle endpoints. -/

theorem start₁_isOk_iff (s : Store) (uid cid now : Nat) :
    (startCampaign₁ s uid cid now).2.isOk = true ↔
      ∃ c, c ∈ s.campaigns ∧ c.id = cid ∧ c.user_id = uid ∧
        c.status = CStatus.draft := by
  unfold startCampaign₁
  cases h : s.campaigns.find? (fun c =>
      decide (c.id = cid ∧ c.user_id = uid ∧ c.status = CStatus.draft)) with
  | none =>
    simp only [Except.isOk, Except.toBool]
    constructor
    · intro habs; cases habs
    · rintro ⟨c, hc, h1, h2, h3⟩
      have hnone := List.find?_eq_none.mp h c hc
      simp only [decide_eq_true_eq] at hnone
      exact absurd ⟨h1, h2, h3⟩ hnone
  | some c =>
    constructor
    · intro _
      refine ⟨c, List.mem_of_find?_eq_some h, ?_⟩
      have hp := List.find?_some h
      simpa using hp
    · intro _
      rfl

theorem start₁_err_unchanged (s : Store) (uid cid now : Nat)
    (h : (startCampaign₁ s uid cid now).2.isOk = false) :
    (startCampaign₁ s uid cid now).1 = s := by
  unfold startCampaign₁ at h ⊢
  cases hf : s.campaigns.find? (fun c =>
      decide (c.id = cid ∧ c.user_id = uid ∧ c.status = CStatus.draft)) with
  | none => rfl
  | some c => rw [hf] at h; cases h

theorem start₀_isOk_iff (s : Store) (uid cid now : Nat) :
    (startCampaign₀ s uid cid now).2.isOk = true ↔
      ∃ c, c ∈ s.campaigns ∧ c.id = cid ∧ c.user_id = uid ∧
        (c.status = CStatus.draft ∨ c.status = CStatus.paused) := by
  unfold startCampaign₀
  cases h : s.campaigns.find? (fun c =>
      decide (c.id = cid ∧ c.user_id = uid ∧
        (c.status = CStatus.draft ∨ c.status = CStatus.paused))) with
  | none =>
    simp only [Except.isOk, Except.toBool]
    constructor
    · intro habs; cases habs
    · rintro ⟨c, hc, h1, h2, h3⟩
      have hnone := List.find?_eq_none.mp h c hc
      simp only [decide_eq_true_eq] at hnone
      exact absurd ⟨h1, h2, h3⟩ hnone
  | some c =>
    constructor
    · intro _
      refine ⟨c, List.mem_of_find?_eq_some h, ?_⟩
      have hp := List.find?_some h
      simpa using hp
    · intro _
      rfl

theorem start₀_err_unchanged (s : Store) (uid cid now : Nat)
    (h : (startCampaign₀ s uid cid now).2.isOk = false) :
    (startCampaign₀ s uid cid now).1 = s := by
  unfold startCampaign₀ at h ⊢
  cases hf : s.campaigns.find? (fun c =>
      decide (c.id = cid ∧ c.user_id = uid ∧
        (c.status = CStatus.draft ∨ c.status = CStatus.paused))) with
  | none => rfl
  | some c => rw [hf] at h; cases h

theorem start₁_ok_campaigns (s : Store) (uid cid now : Nat)
    (h : (startCampaign₁ s uid cid now).2.isOk = true) :
    (startCampaign₁ s uid cid now).1.campaigns =
      s.campaigns.map (fun x =>
        if decide (x.id = cid ∧ x.user_id = uid ∧ x.status = CStatus.draft) then
          { x with status := CStatus.active, start_date := some (x.start_date.getD now),
                   updated_at := now }
        else x) := by
  unfold startCampaign₁ at h ⊢
  cases hf : s.campaigns.find? (fun c =>
      decide (c.id = cid ∧ c.user_id = uid ∧ c.status = CStatus.draft)) with
  | none => rw [hf] at h; cases h
  | some c => rfl

theorem start₀_ok_campaigns (s : Store) (uid cid now : Nat)
    (h : (startCampaign₀ s uid cid now).2.isOk = true) :
    (startCampaign₀ s uid cid now).1.campaigns =
      s.campaigns.map (fun x =>
        if decide (x.id = cid ∧ x.user_id = uid ∧
            (x.status = CStatus.draft ∨ x.status = CStatus.paused)) then
          { x with status := CStatus.active, start_date := some now, updated_at := now }
        else x) := by
  unfold startCampaign₀ at h ⊢
  cases hf : s.campaigns.find? (fun c =>
      decide (c.id = cid ∧ c.user_id = uid ∧
        (c.status = CStatus.draft ∨ c.status = CStatus.paused))) with
  | none => rw [hf] at h; cases h
  | some c => rfl

/-- Modelled from the spec: the lifecycle state machine of section 4.2 —
draft to active, active to paused, paused to active, active or paused to
completed, and any non-terminal state to cancelled.  Used only as the
comparison target for the transition claims. -/
def allowedTransition (a b : CStatus) : Prop :=
  (a = CStatus.draft ∧ b = CStatus.active) ∨
  (a = CStatus.active ∧ b = CStatus.paused) ∨
  (a = CStatus.paused ∧ b = CStatus.active) ∨
  ((a = CStatus.active ∨ a = CStatus.paused) ∧ b = CStatus.completed) ∨
  (a ≠ CStatus.completed ∧ a ≠ CStatus.cancelled ∧ b = CStatus.cancelled)

instance (a b : CStatus) : Decidable (allowedTransition a b) := by
  unfold allowedTransition
  infer_instance

/-- Row-wise relation between a campaigns table before and after an
operation: each row either keeps its status or moves along an edge of the
spec state machine. -/
def statusStep (c c2 : Campaign) : Prop :=
  c2.status = c.status ∨ allowedTransition c.status c2.status

theorem statusStep_refl (c : Campaign) : statusStep c c := Or.inl rfl

theorem forall₂_statusStep_self (l : List Campaign) : List.Forall₂ statusStep l l := by
  induction l with
  | nil => exact List.Forall₂.nil
  | cons c rest ih => exact List.Forall₂.cons (statusStep_refl c) ih

theorem forall₂_statusStep_map (l : List Campaign) (f : Campaign → Campaign)
    (h : ∀ c, statusStep c (f c)) : List.Forall₂ statusStep l (l.map f) := by
  induction l with
  | nil => exact List.Forall₂.nil
  | cons c rest ih => exact List.Forall₂.cons (h c) ih

theorem map_status_of_preserving (l : List Campaign) (f : Campaign → Campaign)
    (h : ∀ c, (f c).status = c.status) :
    (l.map f).map (fun c => c.status) = l.map (fun c => c.status) := by
  induction l with
  | nil => rfl
  | cons c rest ih =>
    simp only [List.map_cons, ih, h]

theorem applyUpdate₀_status (input : UpdateInput) (now : Nat) (c : Campaign) :
    (applyUpdate₀ input now c).status = c.status := rfl

/-- After a successful variant-1 start, no campaign row of the store matches
the draft-start condition any more. -/
theorem start₁_ok_no_draft_left (s : Store) (uid cid now : Nat)
    (h : (startCampaign₁ s uid cid now).2.isOk = true) :
    (startCampaign₁ s uid cid now).1.campaigns.find? (fun c =>
      decide (c.id = cid ∧ c.user_id = uid ∧ c.status = CStatus.draft)) = none := by
  rw [start₁_ok_campaigns s uid cid now h]
  rw [List.find?_eq_none]
  intro x hx
  rw [List.mem_map] at hx
  obtain ⟨c, _, rfl⟩ := hx
  by_cases hc : (c.id = cid ∧ c.user_id = uid ∧ c.status = CStatus.draft)
  · rw [if_pos (decide_eq_true hc)]
    simp only [decide_eq_true_eq]
    rintro ⟨-, -, habs⟩
    cases habs
  · rw [if_neg (by simpa using hc)]
    simpa using hc

/-- After a successful variant-0 start, no campaign row of the store matches
the draft-or-paused start condition any more. -/
theorem start₀_ok_none_left (s : Store) (uid cid now : Nat)
    (h : (startCampaign₀ s uid cid now).2.isOk = true) :
    (startCampaign₀ s uid cid now).1.campaigns.find? (fun c =>
      decide (c.id = cid ∧ c.user_id = uid ∧
        (c.status = CStatus.draft ∨ c.status = CStatus.paused))) = none := by
  rw [start₀_ok_campaigns s uid cid now h]
  rw [List.find?_eq_none]
  intro x hx
  rw [List.mem_map] at hx
  obtain ⟨c, _, rfl⟩ := hx
  by_cases hc : (c.id = cid ∧ c.user_id = uid ∧
      (c.status = CStatus.draft ∨ c.status = CStatus.paused))
  · rw [if_pos (decide_eq_true hc)]
    simp only [decide_eq_true_eq]
    rintro ⟨-, -, habs⟩
    rcases habs with habs | habs <;> cases habs
  · rw [if_neg (by simpa using hc)]
    simpa using hc

/-! Lemmas about the idempotent recipient inserts. -/

/-- Number of campaign_recipients rows with the given key pair. -/
def recipCount (tbl : List Recipient) (cid ct : Nat) : Nat :=
  tbl.countP (fun r => decide (r.campaign_id = cid ∧ r.contact_id = ct))

/-- The UNIQUE(campaign_id, contact_id) constraint of the schema as a
predicate on the table. -/
def recipUniq (tbl : List Recipient) : Prop :=
  ∀ cid ct, recipCount tbl cid ct ≤ 1

theorem hasRecipient_iff_pos (tbl : List Recipient) (cid ct : Nat) :
    hasRecipient tbl cid ct = true ↔ 0 < recipCount tbl cid ct := by
  simp only [hasRecipient, recipCount, List.any_eq_true, List.countP_pos_iff,
    decide_eq_true_eq]

theorem recipCount_append (tbl tbl2 : List Recipient) (cid ct : Nat) :
    recipCount (tbl ++ tbl2) cid ct = recipCount tbl cid ct + recipCount tbl2 cid ct :=
  List.countP_append _ _ _

theorem recipCount_new (cid ct now cid2 ct2 : Nat) :
    recipCount [newRecipient cid ct now] cid2 ct2 =
      if cid = cid2 ∧ ct = ct2 then 1 else 0 := by
  simp only [recipCount, newRecipient, List.countP_cons, List.countP_nil]
  by_cases h : (cid = cid2 ∧ ct = ct2)
  · rw [if_pos h, if_pos (decide_eq_true h)]
  · rw [if_neg h, if_neg (by simpa using h)]

theorem recipUniq_append_new (tbl : List Recipient) (cid ct now : Nat)
    (hu : recipUniq tbl) (h : hasRecipient tbl cid ct = false) :
    recipUniq (tbl ++ [newRecipient cid ct now]) := by
  intro cid2 ct2
  rw [recipCount_append, recipCount_new]
  by_cases hk : (cid = cid2 ∧ ct = ct2)
  · rw [if_pos hk]
    obtain ⟨rfl, rfl⟩ := hk
    have hz : ¬(0 < recipCount tbl cid ct) := by
      rw [← hasRecipient_iff_pos, h]
      simp
    omega
  · rw [if_neg hk]
    have := hu cid2 ct2
    omega

theorem hasRecipient_append_new (tbl : List Recipient) (cid ct now cid2 ct2 : Nat) :
    hasRecipient (tbl ++ [newRecipient cid ct now]) cid2 ct2 = true ↔
      (hasRecipient tbl cid2 ct2 = true ∨ (cid = cid2 ∧ ct = ct2)) := by
  simp only [hasRecipient, List.any_append, Bool.or_eq_true, List.any_cons,
    List.any_nil, Bool.or_false, newRecipient, decide_eq_true_eq]

theorem addRecLoop_has (cid now : Nat) :
    ∀ (ids : List Nat) (tbl : List Recipient) (l : List Nat) (cid2 ct : Nat),
      hasRecipient (addRecLoop cid now (tbl, l) ids).1 cid2 ct = true ↔
        (hasRecipient tbl cid2 ct = true ∨ (cid2 = cid ∧ ct ∈ ids)) := by
  intro ids
  induction ids with
  | nil =>
    intro tbl l cid2 ct
    simp [addRecLoop]
  | cons ct0 rest ih =>
    intro tbl l cid2 ct
    unfold addRecLoop
    by_cases h0 : hasRecipient tbl cid ct0 = true
    · rw [if_pos h0]
      rw [ih tbl l cid2 ct]
      constructor
      · rintro (h | ⟨rfl, hm⟩)
        · exact Or.inl h
        · exact Or.inr ⟨rfl, List.mem_cons_of_mem _ hm⟩
      · rintro (h | ⟨rfl, hm⟩)
        · exact Or.inl h
        · rcases List.mem_cons.mp hm with rfl | hm2
          · exact Or.inl h0
          · exact Or.inr ⟨rfl, hm2⟩
    · rw [if_neg h0]
      rw [ih (tbl ++ [newRecipient cid ct0 now]) (l ++ [ct0]) cid2 ct]
      rw [hasRecipient_append_new]
      constructor
      · rintro ((h | ⟨rfl, rfl⟩) | ⟨rfl, hm⟩)
        · exact Or.inl h
        · exact Or.inr ⟨rfl, List.mem_cons_self _ _⟩
        · exact Or.inr ⟨rfl, List.mem_cons_of_mem _ hm⟩
      · rintro (h | ⟨rfl, hm⟩)
        · exact Or.inl (Or.inl h)
        · rcases List.mem_cons.mp hm with rfl | hm2
          · exact Or.inl (Or.inr ⟨rfl, rfl⟩)
          · exact Or.inr ⟨rfl, hm2⟩

theorem addRecLoop_uniq (cid now : Nat) :
    ∀ (ids : List Nat) (tbl : List Recipient) (l : List Nat),
      recipUniq tbl → recipUniq (addRecLoop cid now (tbl, l) ids).1 := by
  intro ids
  induction ids with
  | nil => intro tbl l hu; exact hu
  | cons ct0 rest ih =>
    intro tbl l hu
    unfold addRecLoop
    by_cases h0 : hasRecipient tbl cid ct0 = true
    · rw [if_pos h0]
      exact ih tbl l hu
    · rw [if_neg h0]
      exact ih _ _ (recipUniq_append_new tbl cid ct0 now hu (by simpa using h0))

theorem recipCount_of_uniq (tbl : List Recipient) (cid ct : Nat)
    (hu : recipUniq tbl) :
    recipCount tbl cid ct = if hasRecipient tbl cid ct = true then 1 else 0 := by
  by_cases h : hasRecipient tbl cid ct = true
  · rw [if_pos h]
    have h1 := (hasRecipient_iff_pos tbl cid ct).mp h
    have h2 := hu cid ct
    omega
  · rw [if_neg h]
    have h1 : ¬(0 < recipCount tbl cid ct) := by
      rw [← hasRecipient_iff_pos]
      simpa using h
    omega

/-! Lemmas about the ORDER BY model and the listing endpoint. -/

theorem mem_insertSorted (le : α → α → Bool) (a x : α) :
    ∀ (l : List α), x ∈ insertSorted le a l ↔ x = a ∨ x ∈ l := by
  intro l
  induction l with
  | nil => simp [insertSorted]
  | cons b rest ih =>
    unfold insertSorted
    by_cases h : le a b = true
    · rw [if_pos h]
      simp
    · rw [if_neg h]
      simp only [List.mem_cons, ih]
      tauto

theorem mem_sortRows (le : α → α → Bool) (x : α) :
    ∀ (l : List α), x ∈ sortRows le l ↔ x ∈ l := by
  intro l
  induction l with
  | nil => simp [sortRows]
  | cons a rest ih =>
    unfold sortRows
    rw [mem_insertSorted, ih, List.mem_cons]

theorem listCampaigns₁_user (s : Store) (uid : Nat) (statusF : Option CStatus)
    (typeF : Option CType) (page limit : Nat) (row : CampaignRow)
    (h : row ∈ listCampaigns₁ s uid statusF typeF page limit) :
    row.campaign.user_id = uid := by
  unfold listCampaigns₁ at h
  rw [List.mem_map] at h
  obtain ⟨c, hc, rfl⟩ := h
  have h1 := List.mem_of_mem_take hc
  have h2 := List.mem_of_mem_drop h1
  rw [mem_sortRows] at h2
  have h3 := List.of_mem_filter h2
  simp only [Bool.and_eq_true, decide_eq_true_eq] at h3
  exact h3.1.1

theorem getCampaign₁_user (s : Store) (uid cid : Nat) (d : CampaignDetail)
    (h : getCampaign₁ s uid cid = Except.ok d) : d.campaign.user_id = uid := by
  unfold getCampaign₁ at h
  cases hf : s.campaigns.find? (fun c => decide (c.id = cid ∧ c.user_id = uid)) with
  | none => rw [hf] at h; cases h
  | some c =>
    rw [hf] at h
    cases h
    have hp := List.find?_some hf
    simp only [decide_eq_true_eq] at hp
    exact hp.2

/-! Lemmas about operations whose target campaign is not owned by the caller. -/

theorem any_owned_false (l : List Campaign) (uid cid : Nat)
    (hno : ∀ c ∈ l, c.id = cid → c.user_id ≠ uid) :
    l.any (fun c => decide (c.id = cid ∧ c.user_id = uid)) = false := by
  rw [List.any_eq_false]
  intro c hc
  simp only [decide_eq_true_eq]
  rintro ⟨h1, h2⟩
  exact hno c hc h1 h2

theorem update₁_not_owned (s : Store) (uid cid : Nat) (input : UpdateInput) (now : Nat)
    (hno : ∀ c ∈ s.campaigns, c.id = cid → c.user_id ≠ uid) :
    updateCampaign₁ s uid cid input now =
      (s, .error (.notFound "Campaign not found")) := by
  unfold updateCampaign₁
  cases hf : s.campaigns.find? (fun c => decide (c.id = cid ∧ c.user_id = uid)) with
  | none => rfl
  | some c =>
    have hp := List.find?_some hf
    simp only [decide_eq_true_eq] at hp
    exact absurd hp.2 (hno c (List.mem_of_find?_eq_some hf) hp.1)

theorem delete_not_owned (s : Store) (uid cid : Nat)
    (hno : ∀ c ∈ s.campaigns, c.id = cid → c.user_id ≠ uid) :
    deleteCampaign s uid cid = (s, .error (.notFound "Campaign not found")) := by
  unfold deleteCampaign
  rw [any_owned_false s.campaigns uid cid hno]
  rfl

theorem addRecipients_not_owned (s : Store) (uid cid : Nat) (ids : List Nat) (now : Nat)
    (hno : ∀ c ∈ s.campaigns, c.id = cid → c.user_id ≠ uid) :
    addRecipients s uid cid (some ids) now =
      (s, .error (.notFound "Campaign not found")) := by
  unfold addRecipients
  rw [any_owned_false s.campaigns uid cid hno]
  rfl

theorem start₁_not_owned (s : Store) (uid cid now : Nat)
    (hno : ∀ c ∈ s.campaigns, c.id = cid → c.user_id ≠ uid) :
    startCampaign₁ s uid cid now =
      (s, .error (.badRequest "Campaign not found or cannot be started (must be in draft status)")) := by
  unfold startCampaign₁
  cases hf : s.campaigns.find? (fun c =>
      decide (c.id = cid ∧ c.user_id = uid ∧ c.status = CStatus.draft)) with
  | none => rfl
  | some c =>
    have hp := List.find?_some hf
    simp only [decide_eq_true_eq] at hp
    exact absurd hp.2.1 (hno c (List.mem_of_find?_eq_some hf) hp.1)

theorem pause₁_not_owned (s : Store) (uid cid : Nat) (action : Option String) (now : Nat)
    (hno : ∀ c ∈ s.campaigns, c.id = cid → c.user_id ≠ uid) :
    pauseResume₁ s uid cid action now =
      (s, .error (.badRequest "Campaign not found or cannot be paused/resumed")) := by
  unfold pauseResume₁
  cases hf : s.campaigns.find? (fun c =>
      decide (c.id = cid ∧ c.user_id = uid ∧
        (c.status = CStatus.active ∨ c.status = CStatus.paused))) with
  | none => rfl
  | some c =>
    have hp := List.find?_some hf
    simp only [decide_eq_true_eq] at hp
    exact absurd hp.2.1 (hno c (List.mem_of_find?_eq_some hf) hp.1)

theorem get₁_not_owned (s : Store) (uid cid : Nat)
    (hno : ∀ c ∈ s.campaigns, c.id = cid → c.user_id ≠ uid) :
    getCampaign₁ s uid cid = .error (.notFound "Campaign not found") := by
  unfold getCampaign₁
  cases hf : s.campaigns.find? (fun c => decide (c.id = cid ∧ c.user_id = uid)) with
  | none => rfl
  | some c =>
    have hp := List.find?_some hf
    simp only [decide_eq_true_eq] at hp
    exact absurd hp.2 (hno c (List.mem_of_find?_eq_some hf) hp.1)

/-! Success-shape lemmas for create and update. -/

theorem create₀_ok_shape (s : Store) (uid : Nat) (input : CreateInput) (now : Nat)
    (c : Campaign) :
    (createCampaign₀ s uid input now).2 = Except.ok c →
    (c.id = s.nextCampaignId ∧
     (c.message_count : Int) = ((input.messages.getD []).length : Int) ∧
     (createCampaign₀ s uid input now).1.messages =
       s.messages ++ renumber s.nextCampaignId c.ctype now 1 (input.messages.getD [])) := by
  unfold createCampaign₀
  split
  · intro h; cases h
  · split
    · intro h; cases h
    · rename_i hlen
      split
      · intro h; cases h
      · rename_i tbl hins
        intro h
        cases h
        rw [decide_eq_true_eq] at hlen
        have hlen2 := not_not.mp hlen
        refine ⟨rfl, ?_, ?_⟩
        · exact hlen2.symm
        · simpa [mkCampaign₀] using insertMessages_ok _ _ _ hins

theorem update₀_ok_messages (s : Store) (uid cid : Nat) (input : UpdateInput)
    (now : Nat) (msgs : List MsgInput) (c : Campaign)
    (hm : input.messages = some msgs) :
    (updateCampaign₀ s uid cid input now).2 = Except.ok c →
    ∃ t, (updateCampaign₀ s uid cid input now).1.messages =
      s.messages.filter (fun m => decide (m.campaign_id ≠ cid)) ++
        renumber cid t now 1 msgs := by
  unfold updateCampaign₀
  split
  · intro h; cases h
  · rename_i c0 hf
    split
    · rename_i hnone
      rw [hm] at hnone
      cases hnone
    · rename_i msgs2 hm2
      rw [hm] at hm2
      cases hm2
      split
      · intro h; cases h
      · rename_i tbl hins
        intro h
        refine ⟨input.ctype.getD c0.ctype, ?_⟩
        simpa using insertMessages_ok _ _ _ hins

theorem create₁_shape (s : Store) (uid : Nat) (input : CreateInput) (now : Nat) :
    (∃ c, (createCampaign₁ s uid input now).2 = Except.ok c ∧
       (createCampaign₁ s uid input now).1.campaigns = s.campaigns ++ [c] ∧
       (createCampaign₁ s uid input now).1.messages =
         s.messages ++ entriesFrom₁ c.id now (input.messages.getD []) ∧
       (createCampaign₁ s uid input now).1.recipients = s.recipients ∧
       c.id = s.nextCampaignId) ∨
    ((createCampaign₁ s uid input now).2.isOk = false ∧
     (createCampaign₁ s uid input now).1 = s) := by
  unfold createCampaign₁
  split
  · right
    exact ⟨rfl, rfl⟩
  · split
    · right
      exact ⟨rfl, rfl⟩
    · rename_i tbl hins
      left
      refine ⟨mkCampaign₁ s uid input now, rfl, rfl, ?_, rfl, rfl⟩
      have he := insertMessages_ok _ _ _ hins
      simpa [mkCampaign₁] using he

theorem start₁_recipients_eq (s : Store) (uid cid now : Nat) :
    (startCampaign₁ s uid cid now).1.recipients = s.recipients := by
  unfold startCampaign₁
  split
  · rfl
  · rfl

theorem start₀_recipients_eq (s : Store) (uid cid now : Nat) :
    (startCampaign₀ s uid cid now).1.recipients = s.recipients := by
  unfold startCampaign₀
  split
  · rfl
  · rfl

theorem start₁_messages_eq (s : Store) (uid cid now : Nat) :
    (startCampaign₁ s uid cid now).1.messages = s.messages := by
  unfold startCampaign₁
  split
  · rfl
  · rfl

theorem start₀_messages_eq (s : Store) (uid cid now : Nat) :
    (startCampaign₀ s uid cid now).1.messages = s.messages := by
  unfold startCampaign₀
  split
  · rfl
  · rfl

theorem start₁_statusStep (s : Store) (uid cid now : Nat) :
    List.Forall₂ statusStep s.campaigns (startCampaign₁ s uid cid now).1.campaigns := by
  unfold startCampaign₁
  split
  · exact forall₂_statusStep_self _
  · apply forall₂_statusStep_map
    intro c
    by_cases hc : (c.id = cid ∧ c.user_id = uid ∧ c.status = CStatus.draft)
    · rw [if_pos (decide_eq_true hc)]
      right
      exact Or.inl ⟨hc.2.2, rfl⟩
    · rw [if_neg (by simpa using hc)]
      exact statusStep_refl c

theorem start₀_statusStep (s : Store) (uid cid now : Nat) :
    List.Forall₂ statusStep s.campaigns (startCampaign₀ s uid cid now).1.campaigns := by
  unfold startCampaign₀
  split
  · exact forall₂_statusStep_self _
  · apply forall₂_statusStep_map
    intro c
    by_cases hc : (c.id = cid ∧ c.user_id = uid ∧
        (c.status = CStatus.draft ∨ c.status = CStatus.paused))
    · rw [if_pos (decide_eq_true hc)]
      right
      rcases hc.2.2 with hd | hp
      · exact Or.inl ⟨hd, rfl⟩
      · exact Or.inr (Or.inr (Or.inl ⟨hp, rfl⟩))
    · rw [if_neg (by simpa using hc)]
      exact statusStep_refl c

theorem pause₁_statusStep (s : Store) (uid cid : Nat) (action : Option String)
    (now : Nat) :
    List.Forall₂ statusStep s.campaigns
      (pauseResume₁ s uid cid action now).1.campaigns := by
  unfold pauseResume₁
  split
  · exact forall₂_statusStep_self _
  · apply forall₂_statusStep_map
    intro c
    by_cases hc : (c.id = cid ∧ c.user_id = uid ∧
        (c.status = CStatus.active ∨ c.status = CStatus.paused))
    · rw [if_pos (decide_eq_true hc)]
      by_cases ha : action = some "resume"
      · rw [if_pos ha]
        rcases hc.2.2 with hact | hpau
        · exact Or.inl hact.symm
        · exact Or.inr (Or.inr (Or.inr (Or.inl ⟨hpau, rfl⟩)))
      · rw [if_neg ha]
        rcases hc.2.2 with hact | hpau
        · exact Or.inr (Or.inr (Or.inl ⟨hact, rfl⟩))
        · exact Or.inl hpau.symm
    · rw [if_neg (by simpa using hc)]
      exact statusStep_refl c

theorem pause₀_statusStep (s : Store) (uid cid : Nat) (action : Option String)
    (now : Nat) :
    List.Forall₂ statusStep s.campaigns
      (pauseResume₀ s uid cid action now).1.campaigns := by
  unfold pauseResume₀
  split
  · exact forall₂_statusStep_self _
  · split
    · exact forall₂_statusStep_self _
    · apply forall₂_statusStep_map
      intro c
      by_cases ha : action = some "pause"
      · rw [if_pos ha] at *
        by_cases hc : (c.id = cid ∧ c.user_id = uid ∧ c.status = CStatus.active)
        · rw [if_pos (decide_eq_true (by simpa [ha] using hc))]
          rw [if_pos ha]
          exact Or.inr (Or.inr (Or.inl ⟨hc.2.2, rfl⟩))
        · rw [if_neg (by simpa [ha] using hc)]
          exact statusStep_refl c
      · rw [if_neg ha] at *
        by_cases hc : (c.id = cid ∧ c.user_id = uid ∧ c.status = CStatus.paused)
        · rw [if_pos (decide_eq_true (by simpa [ha] using hc))]
          rw [if_neg ha]
          exact Or.inr (Or.inr (Or.inr (Or.inl ⟨hc.2.2, rfl⟩)))
        · rw [if_neg (by simpa [ha] using hc)]
          exact statusStep_refl c

theorem update₀_map_status (s : Store) (uid cid : Nat) (input : UpdateInput)
    (now : Nat) :
    (updateCampaign₀ s uid cid input now).1.campaigns.map (fun c => c.status) =
      s.campaigns.map (fun c => c.status) := by
  have hf : ∀ c : Campaign,
      (if decide (c.id = cid ∧ c.user_id = uid) then applyUpdate₀ input now c
       else c).status = c.status := by
    intro c
    split
    · exact applyUpdate₀_status _ _ _
    · rfl
  unfold updateCampaign₀
  split
  · rfl
  · split
    · exact map_status_of_preserving _ _ hf
    · split
      · rfl
      · exact map_status_of_preserving _ _ hf

theorem start₁_twice (s : Store) (uid cid now now2 : Nat)
    (h : (startCampaign₁ s uid cid now).2.isOk = true) :
    startCampaign₁ (startCampaign₁ s uid cid now).1 uid cid now2 =
      ((startCampaign₁ s uid cid now).1,
       .error (.badRequest "Campaign not found or cannot be started (must be in draft status)")) := by
  have hn := start₁_ok_no_draft_left s uid cid now h
  generalize hG : (startCampaign₁ s uid cid now).1 = s1 at hn ⊢
  unfold startCampaign₁
  rw [hn]

theorem start₀_twice (s : Store) (uid cid now now2 : Nat)
    (h : (startCampaign₀ s uid cid now).2.isOk = true) :
    startCampaign₀ (startCampaign₀ s uid cid now).1 uid cid now2 =
      ((startCampaign₀ s uid cid now).1,
       .error (.notFound "Campaign not found or cannot be started")) := by
  have hn := start₀_ok_none_left s uid cid now h
  generalize hG : (startCampaign₀ s uid cid now).1 = s1 at hn ⊢
  unfold startCampaign₀
  rw [hn]

/-! Additional fixtures for the claim theorems. -/

/-- Create request declaring message_count 2 but providing only one message. -/
def createMismatch : CreateInput :=
  { emptyCreate with
      name := some "x", ctype := some CType.email,
      message_count := some 2, messages := some [msgIn 1 "hi"] }

/-- Well-formed create request: message_count 2 with two messages. -/
def createTwo : CreateInput :=
  { emptyCreate with
      name := some "x", ctype := some CType.email,
      message_count := some 2, messages := some [msgIn 1 "a", msgIn 2 "b"] }

/-- Create request whose two messages share sequence_number 1 and type email:
the second campaign_messages insert violates the unique constraint. -/
def createDup : CreateInput :=
  { emptyCreate with
      name := some "x", ctype := some CType.email,
      message_count := some 2, messages := some [msgIn 1 "a", msgIn 1 "b"] }

/-- Update request replacing the sequence with entries numbered 1 and 3. -/
def updGap : UpdateInput :=
  { emptyUpdate with messages := some [msgIn 1 "ONE", msgIn 3 "three"] }

/-- Update request setting only the status field to draft. -/
def updToDraft : UpdateInput :=
  { emptyUpdate with status := some CStatus.draft }

/-- Update request replacing the sequence with two fresh messages. -/
def updTwo : UpdateInput :=
  { emptyUpdate with messages := some [msgIn 7 "x", msgIn 9 "y"] }

theorem recipUniq_singleton (r : Recipient) : recipUniq [r] := by
  intro cid ct
  exact le_trans (List.countP_le_length _) (by simp)

/-! Claim theorems. -/

/-- Claim C1, counterexample: on a store whose only campaign is a draft with
message_count 3, zero Message Sequence Entries and zero Recipient Entries,
the start operation nevertheless succeeds — the code has no guard on
sequence completeness or recipient presence. -/
theorem C1_counterexample :
    (startCampaign₁ storeA 7 1 5).2.isOk = true ∧
    storeA.messages.length = 0 ∧ campA.message_count = 3 ∧
    storeA.recipients = [] ∧ campA.status = CStatus.draft := by decide

/-- Claim C1, amended: start succeeds exactly when a campaign with the given
id belongs to the caller and is in draft status (variant 1; draft or paused
in variant 0) — there is no guard on message-sequence completeness or
recipient presence — and a rejected start leaves the store unchanged. -/
theorem C1_start_guard_amended : ∀ (s : Store) (uid cid now : Nat),
    ((startCampaign₁ s uid cid now).2.isOk = true ↔
      ∃ c, c ∈ s.campaigns ∧ c.id = cid ∧ c.user_id = uid ∧
        c.status = CStatus.draft) ∧
    ((startCampaign₁ s uid cid now).2.isOk = false →
      (startCampaign₁ s uid cid now).1 = s) ∧
    ((startCampaign₀ s uid cid now).2.isOk = true ↔
      ∃ c, c ∈ s.campaigns ∧ c.id = cid ∧ c.user_id = uid ∧
        (c.status = CStatus.draft ∨ c.status = CStatus.paused)) ∧
    ((startCampaign₀ s uid cid now).2.isOk = false →
      (startCampaign₀ s uid cid now).1 = s) :=
  fun s uid cid now =>
    ⟨start₁_isOk_iff s uid cid now, start₁_err_unchanged s uid cid now,
     start₀_isOk_iff s uid cid now, start₀_err_unchanged s uid cid now⟩

/-- Claim C1, witness: a start request by a non-owner fails and leaves the
store unchanged, in both route variants. -/
theorem C1_start_guard_amended_witness :
    (startCampaign₁ storeA 8 1 5).1 = storeA ∧
    (startCampaign₀ storeA 8 1 5).1 = storeA :=
  ⟨(C1_start_guard_amended storeA 8 1 5).2.1 (by decide),
   (C1_start_guard_amended storeA 8 1 5).2.2.2 (by decide)⟩

/-- Claim C2, counterexample: the variant-1 create accepts a request whose
message_count is 2 but which carries a single message; the stored campaign
has message_count 2 while only one Message Sequence Entry exists for it. -/
theorem C2_counterexample :
    (createCampaign₁ emptyStore 7 createMismatch 0).2.toOption =
      some (mkCampaign₁ emptyStore 7 createMismatch 0) ∧
    (mkCampaign₁ emptyStore 7 createMismatch 0).message_count = 2 ∧
    ((createCampaign₁ emptyStore 7 createMismatch 0).1.messages.filter
      (fun m => decide (m.campaign_id = 1))).length = 1 := by decide

/-- Claim C2, amended: only the variant-0 create checks messages.length
against message_count, so after its successful create the number of stored
Message Sequence Entries of the new campaign equals its message_count; the
variant-1 create and both update endpoints do not enforce the equality. -/
theorem C2_create₀_message_count (s : Store) (uid : Nat) (input : CreateInput)
    (now : Nat) (c : Campaign)
    (hfresh : ∀ m ∈ s.messages, m.campaign_id ≠ s.nextCampaignId)
    (hok : (createCampaign₀ s uid input now).2 = Except.ok c) :
    (((createCampaign₀ s uid input now).1.messages.filter
      (fun m => decide (m.campaign_id = c.id))).length : Int) = c.message_count := by
  obtain ⟨hid, hmc, hmsgs⟩ := create₀_ok_shape s uid input now c hok
  rw [hmsgs, hid, List.filter_append]
  have h1 : s.messages.filter (fun m => decide (m.campaign_id = s.nextCampaignId)) = [] := by
    rw [List.filter_eq_nil_iff]
    intro m hm
    simp only [decide_eq_true_eq]
    exact hfresh m hm
  have h2 := filter_eq_of_all s.nextCampaignId
    (renumber s.nextCampaignId c.ctype now 1 (input.messages.getD []))
    (fun m hm => renumber_campaign_id _ _ _ _ _ _ hm)
  rw [h1, h2, List.nil_append, renumber_length]
  exact hmc.symm

/-- Claim C2, witness: a well-formed variant-0 create with two messages
yields a campaign whose stored entry count matches message_count 2. -/
theorem C2_create₀_message_count_witness :
    (((createCampaign₀ emptyStore 7 createTwo 0).1.messages.filter
      (fun m => decide (m.campaign_id = (mkCampaign₀ emptyStore 7 createTwo 0).id))).length : Int) =
      (mkCampaign₀ emptyStore 7 createTwo 0).message_count :=
  C2_create₀_message_count emptyStore 7 createTwo 0
    (mkCampaign₀ emptyStore 7 createTwo 0) (by decide) rfl

/-- Claim C3, counterexample: the variant-1 sequence replacement stores the
caller-provided sequence numbers 1 and 3 without any contiguity check: the
operation succeeds and the campaign (message_count 3) is left with sequence
numbers 1 and 3 — a duplicate-free set with a gap, not 1..message_count. -/
theorem C3_counterexample :
    (updateCampaign₁ storeC 7 1 updGap 9).2.isOk = true ∧
    ((updateCampaign₁ storeC 7 1 updGap 9).1.messages.filter
      (fun m => decide (m.campaign_id = 1))).map (fun m => m.sequence_number) = [1, 3] ∧
    campA.message_count = 3 := by decide

/-- Claim C3, amended: the variant-0 sequence replacement ignores the
caller-provided sequence numbers and renumbers the provided entries 1..N, so
after a successful replacement the campaign's stored sequence numbers are
exactly the duplicate-free contiguous range 1..N where N is the number of
provided messages; the variant-1 replacement stores caller-provided numbers
with no contiguity validation and does not fail on gaps. -/
theorem C3_update₀_contiguous (s : Store) (uid cid : Nat) (input : UpdateInput)
    (now : Nat) (msgs : List MsgInput) (c : Campaign)
    (hm : input.messages = some msgs)
    (hok : (updateCampaign₀ s uid cid input now).2 = Except.ok c) :
    ((updateCampaign₀ s uid cid input now).1.messages.filter
        (fun m => decide (m.campaign_id = cid))).map (fun m => m.sequence_number) =
      seqFrom 1 msgs.length ∧
    (((updateCampaign₀ s uid cid input now).1.messages.filter
        (fun m => decide (m.campaign_id = cid))).map
          (fun m => m.sequence_number)).Nodup ∧
    (∀ j : Int,
      j ∈ ((updateCampaign₀ s uid cid input now).1.messages.filter
        (fun m => decide (m.campaign_id = cid))).map (fun m => m.sequence_number) ↔
      1 ≤ j ∧ j ≤ (msgs.length : Int)) := by
  obtain ⟨t, hmsgs⟩ := update₀_ok_messages s uid cid input now msgs c hm hok
  have hfil : (updateCampaign₀ s uid cid input now).1.messages.filter
      (fun m => decide (m.campaign_id = cid)) = renumber cid t now 1 msgs := by
    rw [hmsgs, List.filter_append, filter_ne_then_eq, List.nil_append]
    exact filter_eq_of_all cid _ (fun m hm2 => renumber_campaign_id _ _ _ _ _ _ hm2)
  rw [hfil, renumber_map_seq]
  refine ⟨rfl, nodup_seqFrom _ _, ?_⟩
  intro j
  rw [mem_seqFrom]
  omega

/-- Claim C3, witness: replacing the sequence of the storeC campaign with two
messages through variant 0 yields stored sequence numbers exactly 1, 2. -/
theorem C3_update₀_contiguous_witness :
    ((updateCampaign₀ storeC 7 1 updTwo 9).1.messages.filter
        (fun m => decide (m.campaign_id = 1))).map (fun m => m.sequence_number) =
      seqFrom 1 2 :=
  (C3_update₀_contiguous storeC 7 1 updTwo 9 [msgIn 7 "x", msgIn 9 "y"]
    (applyUpdate₀ updTwo 9 campA) rfl rfl).1

/-- Claim C4, counterexample: the variant-1 generic update coalesces the
status column straight from the request body: a completed campaign is moved
back to draft, a transition outside the lifecycle state machine. -/
theorem C4_counterexample :
    (updateCampaign₁ storeD 7 1 updToDraft 9).2.isOk = true ∧
    (updateCampaign₁ storeD 7 1 updToDraft 9).1.campaigns.map (fun c => c.status) =
      [CStatus.draft] ∧
    campD.status = CStatus.completed ∧
    ¬ allowedTransition CStatus.completed CStatus.draft := by decide

/-- Claim C4, amended: the dedicated lifecycle endpoints respect the state
machine — every campaign row either keeps its status or moves along an
allowed edge under start (both variants) and pause/resume (both variants),
and the variant-0 generic update never changes any status — but the
variant-1 generic update can set status to any enum value, bypassing the
machine. -/
theorem C4_lifecycle_respects_machine :
    ∀ (s : Store) (uid cid : Nat) (action : Option String) (input : UpdateInput)
      (now : Nat),
    (updateCampaign₀ s uid cid input now).1.campaigns.map (fun c => c.status) =
      s.campaigns.map (fun c => c.status) ∧
    List.Forall₂ statusStep s.campaigns (startCampaign₁ s uid cid now).1.campaigns ∧
    List.Forall₂ statusStep s.campaigns (startCampaign₀ s uid cid now).1.campaigns ∧
    List.Forall₂ statusStep s.campaigns
      (pauseResume₁ s uid cid action now).1.campaigns ∧
    List.Forall₂ statusStep s.campaigns
      (pauseResume₀ s uid cid action now).1.campaigns :=
  fun s uid cid action input now =>
    ⟨update₀_map_status s uid cid input now, start₁_statusStep s uid cid now,
     start₀_statusStep s uid cid now, pause₁_statusStep s uid cid action now,
     pause₀_statusStep s uid cid action now⟩

/-- Claim C5, confirmed: under the schema's unique key on
(campaign_id, contact_id), two addRecipients calls with overlapping contact
id lists both succeed (duplicates are no-ops, not errors) and leave exactly
one Recipient Entry per unique (campaign id, contact id) pair: afterwards the
row count for a pair is 1 when the contact was present before or occurs in
either list, and 0 otherwise. -/
theorem C5_addRecipients_idem :
    ∀ (s : Store) (uid cid : Nat) (ids1 ids2 : List Nat) (now1 now2 : Nat),
    recipUniq s.recipients →
    (∃ c, c ∈ s.campaigns ∧ c.id = cid ∧ c.user_id = uid) →
    ((addRecipients s uid cid (some ids1) now1).2.isOk = true ∧
     (addRecipients (addRecipients s uid cid (some ids1) now1).1 uid cid
        (some ids2) now2).2.isOk = true ∧
     recipUniq ((addRecipients (addRecipients s uid cid (some ids1) now1).1 uid cid
        (some ids2) now2).1.recipients) ∧
     ∀ ct, recipCount ((addRecipients (addRecipients s uid cid (some ids1) now1).1
        uid cid (some ids2) now2).1.recipients) cid ct =
       if hasRecipient s.recipients cid ct = true ∨ ct ∈ ids1 ∨ ct ∈ ids2 then 1
       else 0) := by
  intro s uid cid ids1 ids2 now1 now2 hu hex
  obtain ⟨c, hmem, hid, huid⟩ := hex
  have hany : s.campaigns.any (fun x => decide (x.id = cid ∧ x.user_id = uid)) = true :=
    List.any_eq_true.mpr ⟨c, hmem, decide_eq_true ⟨hid, huid⟩⟩
  have h1 : addRecipients s uid cid (some ids1) now1 =
      ({ s with recipients := (addRecLoop cid now1 (s.recipients, []) ids1).1 },
       .ok (addRecLoop cid now1 (s.recipients, []) ids1).2) := by
    unfold addRecipients
    rw [hany]
    rfl
  rw [h1]
  dsimp only
  have h2 : addRecipients
      { s with recipients := (addRecLoop cid now1 (s.recipients, []) ids1).1 }
      uid cid (some ids2) now2 =
      ({ s with recipients :=
          (addRecLoop cid now2 ((addRecLoop cid now1 (s.recipients, []) ids1).1, [])
            ids2).1 },
       .ok (addRecLoop cid now2
          ((addRecLoop cid now1 (s.recipients, []) ids1).1, []) ids2).2) := by
    unfold addRecipients
    rw [show ({ s with recipients :=
        (addRecLoop cid now1 (s.recipients, []) ids1).1 } : Store).campaigns.any
        (fun x => decide (x.id = cid ∧ x.user_id = uid)) = true from hany]
    rfl
  rw [h2]
  dsimp only
  have hu1 : recipUniq (addRecLoop cid now1 (s.recipients, []) ids1).1 :=
    addRecLoop_uniq cid now1 ids1 s.recipients [] hu
  have hu2 : recipUniq (addRecLoop cid now2
      ((addRecLoop cid now1 (s.recipients, []) ids1).1, []) ids2).1 :=
    addRecLoop_uniq cid now2 ids2 _ [] hu1
  refine ⟨rfl, rfl, hu2, ?_⟩
  intro ct
  rw [recipCount_of_uniq _ cid ct hu2]
  have hhas : hasRecipient (addRecLoop cid now2
      ((addRecLoop cid now1 (s.recipients, []) ids1).1, []) ids2).1 cid ct = true ↔
      (hasRecipient s.recipients cid ct = true ∨ ct ∈ ids1 ∨ ct ∈ ids2) := by
    rw [addRecLoop_has cid now2 ids2 _ [] cid ct]
    rw [addRecLoop_has cid now1 ids1 _ [] cid ct]
    constructor
    · rintro ((h | ⟨-, h⟩) | ⟨-, h⟩)
      · exact Or.inl h
      · exact Or.inr (Or.inl h)
      · exact Or.inr (Or.inr h)
    · rintro (h | h | h)
      · exact Or.inl (Or.inl h)
      · exact Or.inl (Or.inr ⟨rfl, h⟩)
      · exact Or.inr ⟨rfl, h⟩
  by_cases hh : hasRecipient (addRecLoop cid now2
      ((addRecLoop cid now1 (s.recipients, []) ids1).1, []) ids2).1 cid ct = true
  · rw [if_pos hh, if_pos (hhas.mp hh)]
  · rw [if_neg hh, if_neg (fun hcond => hh (hhas.mpr hcond))]

/-- Claim C5, witness: on a store already holding recipient (1, 5), adding
contacts 5 and 6 and then 6 and 9 succeeds both times and leaves exactly one
row for contact 6. -/
theorem C5_addRecipients_idem_witness :
    (addRecipients (addRecipients storeB 7 1 (some [5, 6]) 3).1 7 1
      (some [6, 9]) 4).2.isOk = true ∧
    recipCount (addRecipients (addRecipients storeB 7 1 (some [5, 6]) 3).1 7 1
      (some [6, 9]) 4).1.recipients 1 6 = 1 := by
  have h := C5_addRecipients_idem storeB 7 1 [5, 6] [6, 9] 3 4
    (recipUniq_singleton _) ⟨campB, by decide, rfl, rfl⟩
  refine ⟨h.2.1, ?_⟩
  rw [h.2.2.2 6]
  exact if_pos (Or.inr (Or.inl (by decide)))

/-- Claim C6, confirmed: the variant-1 create is atomic — either it returns
the created campaign, the campaigns table gains exactly that row, the
messages table gains exactly the row per provided message, and recipients
are untouched; or (as when two provided messages collide on the unique key,
exercised by the concrete createDup input) the whole transaction rolls back
and the store is unchanged. -/
theorem C6_create_atomic :
    (∀ (s : Store) (uid : Nat) (input : CreateInput) (now : Nat),
      (∃ c, (createCampaign₁ s uid input now).2 = Except.ok c ∧
         (createCampaign₁ s uid input now).1.campaigns = s.campaigns ++ [c] ∧
         (createCampaign₁ s uid input now).1.messages =
           s.messages ++ entriesFrom₁ c.id now (input.messages.getD []) ∧
         (createCampaign₁ s uid input now).1.recipients = s.recipients ∧
         c.id = s.nextCampaignId) ∨
      ((createCampaign₁ s uid input now).2.isOk = false ∧
       (createCampaign₁ s uid input now).1 = s)) ∧
    (createCampaign₁ emptyStore 7 createDup 0).2.isOk = false ∧
    (createCampaign₁ emptyStore 7 createDup 0).1 = emptyStore :=
  ⟨create₁_shape, by decide, by decide⟩

/-- Claim C7, confirmed: after a successful start, a second start request on
the same campaign is rejected (variant 1 because the status is no longer
draft, variant 0 because it is neither draft nor paused) and the store is
returned unchanged. -/
theorem C7_second_start_rejected : ∀ (s : Store) (uid cid now now2 : Nat),
    ((startCampaign₁ s uid cid now).2.isOk = true →
      startCampaign₁ (startCampaign₁ s uid cid now).1 uid cid now2 =
        ((startCampaign₁ s uid cid now).1,
         .error (.badRequest "Campaign not found or cannot be started (must be in draft status)"))) ∧
    ((startCampaign₀ s uid cid now).2.isOk = true →
      startCampaign₀ (startCampaign₀ s uid cid now).1 uid cid now2 =
        ((startCampaign₀ s uid cid now).1,
         .error (.notFound "Campaign not found or cannot be started"))) :=
  fun s uid cid now now2 =>
    ⟨start₁_twice s uid cid now now2, start₀_twice s uid cid now now2⟩

/-- Claim C7, witness: starting the draft campaign of storeA succeeds, and
the repeated start is rejected with the store unchanged, in both variants. -/
theorem C7_second_start_rejected_witness :
    startCampaign₁ (startCampaign₁ storeA 7 1 5).1 7 1 6 =
      ((startCampaign₁ storeA 7 1 5).1,
       .error (.badRequest "Campaign not found or cannot be started (must be in draft status)")) ∧
    startCampaign₀ (startCampaign₀ storeA 7 1 5).1 7 1 6 =
      ((startCampaign₀ storeA 7 1 5).1,
       .error (.notFound "Campaign not found or cannot be started")) :=
  ⟨(C7_second_start_rejected storeA 7 1 5 6).1 (by decide),
   (C7_second_start_rejected storeA 7 1 5 6).2 (by decide)⟩

/-- Claim C8, counterexample: on a campaign whose recipient has
current_message_sequence 2, replacing the sequence with a version that
modifies step 1 succeeds — the body of sequence_number 1 is overwritten and
no ConflictError exists in the code. -/
theorem C8_counterexample :
    (recipRow 5 2).current_message_sequence = 2 ∧
    storeC.recipients = [recipRow 5 2] ∧
    (updateCampaign₁ storeC 7 1 updGap 9).2.isOk = true ∧
    ((updateCampaign₁ storeC 7 1 updGap 9).1.messages.filter
      (fun m => decide (m.campaign_id = 1 ∧ m.sequence_number = 1))).map
        (fun m => m.message_body) = ["ONE"] := by decide

/-- Claim C8, amended: the variant-1 sequence update performs an
unconditional delete-and-reinsert — its outcome on campaigns, messages and
its result value are identical for any contents of the recipients table, and
it never modifies recipient rows; recipient progress is never consulted. -/
theorem C8_sequence_update_ignores_recipients :
    ∀ (s : Store) (rs : List Recipient) (uid cid : Nat) (input : UpdateInput)
      (now : Nat),
    (updateCampaign₁ { s with recipients := rs } uid cid input now).1.campaigns =
      (updateCampaign₁ s uid cid input now).1.campaigns ∧
    (updateCampaign₁ { s with recipients := rs } uid cid input now).1.messages =
      (updateCampaign₁ s uid cid input now).1.messages ∧
    (updateCampaign₁ { s with recipients := rs } uid cid input now).2 =
      (updateCampaign₁ s uid cid input now).2 ∧
    (updateCampaign₁ s uid cid input now).1.recipients = s.recipients := by
  intro s rs uid cid input now
  obtain ⟨cs, ms, rs0, n⟩ := s
  unfold updateCampaign₁
  dsimp only
  cases hf : cs.find? (fun c => decide (c.id = cid ∧ c.user_id = uid)) with
  | none => exact ⟨rfl, rfl, rfl, rfl⟩
  | some c0 =>
    cases hm : input.messages with
    | none => exact ⟨rfl, rfl, rfl, rfl⟩
    | some msgs =>
      dsimp only
      cases hins : insertMessages (ms.filter (fun m => decide (m.campaign_id ≠ cid)))
          (entriesFrom₁ cid now msgs) with
      | error e => exact ⟨rfl, rfl, rfl, rfl⟩
      | ok tbl => exact ⟨rfl, rfl, rfl, rfl⟩

/-- Claim C9, counterexample: starting the draft campaign of storeB (one
pending recipient, next_message_scheduled_at NULL) succeeds and leaves the
campaign active while the recipient is still pending (non-terminal) with
next_message_scheduled_at NULL — so null does not imply terminal-or-inactive
and no schedule is computed on start. -/
theorem C9_counterexample :
    (startCampaign₁ storeB 7 1 5).2.isOk = true ∧
    (startCampaign₁ storeB 7 1 5).1.campaigns.map (fun c => c.status) =
      [CStatus.active] ∧
    (startCampaign₁ storeB 7 1 5).1.recipients = [recipRow 5 1] ∧
    (recipRow 5 1).status = RStatus.pending ∧
    (recipRow 5 1).next_message_scheduled_at = none := by decide

/-- Claim C9, amended: both start endpoints update only the campaigns table;
the campaign_recipients and campaign_messages tables are returned unchanged,
so no next_message_scheduled_at is ever computed by start. -/
theorem C9_start_touches_no_recipient : ∀ (s : Store) (uid cid now : Nat),
    (startCampaign₁ s uid cid now).1.recipients = s.recipients ∧
    (startCampaign₀ s uid cid now).1.recipients = s.recipients ∧
    (startCampaign₁ s uid cid now).1.messages = s.messages ∧
    (startCampaign₀ s uid cid now).1.messages = s.messages :=
  fun s uid cid now =>
    ⟨start₁_recipients_eq s uid cid now, start₀_recipients_eq s uid cid now,
     start₁_messages_eq s uid cid now, start₀_messages_eq s uid cid now⟩

/-- Claim C10, confirmed: reads only ever surface campaigns of the
authenticated caller (get and list), and when the target campaign is not
owned by the caller, every mutation (update, delete, add recipients, start,
pause/resume) reports not-found (or the corresponding 400) and returns the
store unchanged. -/
theorem C10_user_isolation :
    ∀ (s : Store) (uid cid : Nat) (input : UpdateInput) (ids : List Nat)
      (action : Option String) (now : Nat) (stF : Option CStatus)
      (tyF : Option CType) (page limit : Nat),
    (∀ d, getCampaign₁ s uid cid = Except.ok d → d.campaign.user_id = uid) ∧
    (∀ row ∈ listCampaigns₁ s uid stF tyF page limit,
      row.campaign.user_id = uid) ∧
    ((∀ c ∈ s.campaigns, c.id = cid → c.user_id ≠ uid) →
      getCampaign₁ s uid cid = .error (.notFound "Campaign not found") ∧
      updateCampaign₁ s uid cid input now =
        (s, .error (.notFound "Campaign not found")) ∧
      deleteCampaign s uid cid = (s, .error (.notFound "Campaign not found")) ∧
      addRecipients s uid cid (some ids) now =
        (s, .error (.notFound "Campaign not found")) ∧
      startCampaign₁ s uid cid now =
        (s, .error (.badRequest "Campaign not found or cannot be started (must be in draft status)")) ∧
      pauseResume₁ s uid cid action now =
        (s, .error (.badRequest "Campaign not found or cannot be paused/resumed"))) :=
  fun s uid cid input ids action now stF tyF page limit =>
    ⟨fun d hd => getCampaign₁_user s uid cid d hd,
     fun row hrow => listCampaigns₁_user s uid stF tyF page limit row hrow,
     fun hno =>
      ⟨get₁_not_owned s uid cid hno, update₁_not_owned s uid cid input now hno,
       delete_not_owned s uid cid hno, addRecipients_not_owned s uid cid ids now hno,
       start₁_not_owned s uid cid now hno, pause₁_not_owned s uid cid action now hno⟩⟩

/-- Claim C10, witness: user 9 deleting or starting user 7's campaign gets a
rejection and the store is unchanged. -/
theorem C10_user_isolation_witness :
    deleteCampaign storeA 9 1 = (storeA, .error (.notFound "Campaign not found")) ∧
    startCampaign₁ storeA 9 1 5 =
      (storeA, .error (.badRequest "Campaign not found or cannot be started (must be in draft status)")) :=
  ⟨((C10_user_isolation storeA 9 1 emptyUpdate [5] none 5 none none 1 10).2.2
      (by decide)).2.2.1,
   ((C10_user_isolation storeA 9 1 emptyUpdate [5] none 5 none none 1 10).2.2
      (by decide)).2.2.2.2.1⟩

end CRM
